import Mathlib

/-!
Verification of the Code-Reviewer pipeline (src/main.py).

The development shallowly embeds the core of `AICodeReviewer`:
  - `_parse_response`  (response text -> `CodeReview`), including a model of
    the regex span extraction `re.search` of a brace-delimited region and of
    Python `json.loads` / `int()` on the values it can return;
  - `_build_prompt`;
  - `review_code` / `_call_gemini` (the remote call is an abstract
    `gen : String -> Except String String` parameter);
  - `review_directory` (the filesystem is an abstract `FS` value);
  - `generate_report` (the written file is modelled as the produced string;
    Python float values are modelled as exact decimals).
-/

namespace CodeReviewer

/-- The opening-brace character, written by code so that no brace literal
appears in the source text of this file. -/
def lbrace : Char := Char.ofNat 123

/-- The closing-brace character. -/
def rbrace : Char := Char.ofNat 125

/-- A single-quote character, used by the Python `repr` model. -/
def squote : Char := Char.ofNat 39

/-! ## JSON value model

`Json` models the Python values that `json.loads` can return: `None`, `bool`,
`int`, `float`, `str`, `list`, `dict`.  A JSON number with a fraction or an
exponent becomes a Python float; it is modelled here as the exact decimal
`m * 10 ^ e` (binary rounding of the host float type is not modelled). -/

/-- A Python number produced by `json.loads`: an `int`, or a `float`
represented as the exact decimal value `m * 10 ^ e`. -/
inductive PyNum where
  | int (n : Int)
  | float (m : Int) (e : Int)

/-- A Python value produced by `json.loads`. -/
inductive Json where
  | null
  | bool (b : Bool)
  | num (v : PyNum)
  | str (s : String)
  | arr (elems : List Json)
  | obj (kvs : List (String × Json))

/-! ## A model of `json.loads`

A fuel-indexed recursive-descent parser for the JSON grammar as accepted by
Python `json.loads` (strict mode).  Simplifications that no theorem below
depends on: the `NaN` / `Infinity` extensions are not modelled (such inputs
simply fail to parse), a `\u` escape is decoded without surrogate-pair
combination, and fuel exhaustion reports a parse failure. -/

/-- JSON insignificant whitespace. -/
def isJsonWs (c : Char) : Bool := c = ' ' || c = '\t' || c = '\n' || c = '\r'

/-- Drop leading JSON whitespace. -/
def skipWs : List Char → List Char
  | [] => []
  | c :: cs => if isJsonWs c then skipWs cs else c :: cs

/-- Value of one hexadecimal digit. -/
def hexVal (c : Char) : Option Nat :=
  if '0' ≤ c ∧ c ≤ '9' then some (c.toNat - '0'.toNat)
  else if 'a' ≤ c ∧ c ≤ 'f' then some (c.toNat - 'a'.toNat + 10)
  else if 'A' ≤ c ∧ c ≤ 'F' then some (c.toNat - 'A'.toNat + 10)
  else none

/-- Single-character JSON string escapes. -/
def escChar (c : Char) : Option Char :=
  if c = '"' then some '"'
  else if c = '\\' then some '\\'
  else if c = '/' then some '/'
  else if c = 'b' then some (Char.ofNat 8)
  else if c = 'f' then some (Char.ofNat 12)
  else if c = 'n' then some '\n'
  else if c = 'r' then some '\r'
  else if c = 't' then some '\t'
  else none

/-- Parse the body of a JSON string after the opening quote; returns the
decoded characters and the input remaining after the closing quote. -/
def parseStringBody : Nat → List Char → Option (List Char × List Char)
  | 0, _ => none
  | _ + 1, [] => none
  | fuel + 1, c :: cs =>
    if c = '"' then some ([], cs)
    else if c = '\\' then
      match cs with
      | 'u' :: a :: b :: d :: e :: cs2 =>
        match hexVal a, hexVal b, hexVal d, hexVal e with
        | some h1, some h2, some h3, some h4 =>
          match parseStringBody fuel cs2 with
          | some (body, rest) =>
            some (Char.ofNat (((h1 * 16 + h2) * 16 + h3) * 16 + h4) :: body, rest)
          | none => none
        | _, _, _, _ => none
      | e :: cs2 =>
        match escChar e with
        | some ec =>
          match parseStringBody fuel cs2 with
          | some (body, rest) => some (ec :: body, rest)
          | none => none
        | none => none
      | [] => none
    else if c.toNat < 32 then none
    else
      match parseStringBody fuel cs with
      | some (body, rest) => some (c :: body, rest)
      | none => none

/-- Longest prefix of decimal digits, and the rest. -/
def spanDigits : List Char → List Char × List Char
  | [] => ([], [])
  | c :: cs =>
    if c.isDigit then
      let (ds, rest) := spanDigits cs
      (c :: ds, rest)
    else ([], c :: cs)

/-- Numeric value of a digit list. -/
def digitsToNat (ds : List Char) : Nat :=
  ds.foldl (fun acc c => acc * 10 + (c.toNat - '0'.toNat)) 0

/-- Parse a JSON exponent part (after the `e` / `E`). -/
def parseExpPart (cs : List Char) : Option (Int × List Char) :=
  let (sgn, cs1) : Int × List Char :=
    match cs with
    | '+' :: r => (1, r)
    | '-' :: r => (-1, r)
    | _ => (1, cs)
  match spanDigits cs1 with
  | ([], _) => none
  | (ds, rest) => some (sgn * (digitsToNat ds : Int), rest)

/-- Parse a JSON number.  An integer literal yields a Python `int`; a literal
with a fraction or exponent yields a Python `float`, modelled as an exact
decimal. -/
def parseNumber (cs : List Char) : Option (PyNum × List Char) :=
  let (neg, cs1) : Bool × List Char :=
    match cs with
    | '-' :: r => (true, r)
    | _ => (false, cs)
  match spanDigits cs1 with
  | ([], _) => none
  | (ds, cs2) =>
    if ds.length > 1 ∧ ds.head? = some '0' then none
    else
      let ip : Nat := digitsToNat ds
      let fracRes : Option (List Char × List Char) :=
        match cs2 with
        | '.' :: r =>
          match spanDigits r with
          | ([], _) => none
          | (fs, r2) => some (fs, r2)
        | _ => some ([], cs2)
      match fracRes with
      | none => none
      | some (fs, cs3) =>
        let expRes : Option (Option Int × List Char) :=
          match cs3 with
          | c :: r =>
            if c = 'e' ∨ c = 'E' then
              match parseExpPart r with
              | some (ev, r2) => some (some ev, r2)
              | none => none
            else some (none, c :: r)
          | [] => some (none, [])
        match expRes with
        | none => none
        | some (exv, cs4) =>
          if fs = [] ∧ exv = none then
            some (PyNum.int (if neg then -(ip : Int) else (ip : Int)), cs4)
          else
            let m0 : Int := ((ip * 10 ^ fs.length + digitsToNat fs : Nat) : Int)
            let m : Int := if neg then -m0 else m0
            let e : Int := (exv.getD 0) - (fs.length : Int)
            some (PyNum.float m e, cs4)

/-- Check for a literal keyword continuation. -/
def expectLit (lit : List Char) (cs : List Char) : Option (List Char) :=
  if lit.isPrefixOf cs then some (cs.drop lit.length) else none

mutual

/-- Parse one JSON value. -/
def parseValue : Nat → List Char → Option (Json × List Char)
  | 0, _ => none
  | fuel + 1, cs =>
    match skipWs cs with
    | [] => none
    | c :: rest =>
      if c = '"' then
        match parseStringBody (rest.length + 1) rest with
        | some (body, r) => some (.str (String.mk body), r)
        | none => none
      else if c = lbrace then parseObjBody fuel rest
      else if c = '[' then parseArrBody fuel rest
      else if c = 't' then
        match expectLit ['r', 'u', 'e'] rest with
        | some r => some (.bool true, r)
        | none => none
      else if c = 'f' then
        match expectLit ['a', 'l', 's', 'e'] rest with
        | some r => some (.bool false, r)
        | none => none
      else if c = 'n' then
        match expectLit ['u', 'l', 'l'] rest with
        | some r => some (.null, r)
        | none => none
      else
        match parseNumber (c :: rest) with
        | some (v, r) => some (.num v, r)
        | none => none

/-- Parse an object body, right after the opening brace. -/
def parseObjBody : Nat → List Char → Option (Json × List Char)
  | 0, _ => none
  | fuel + 1, cs =>
    match skipWs cs with
    | c :: rest =>
      if c = rbrace then some (.obj [], rest)
      else
        match parseMembers fuel (c :: rest) with
        | some (kvs, r) => some (.obj kvs, r)
        | none => none
    | [] => none

/-- Parse one or more `"key": value` members followed by the closing brace. -/
def parseMembers : Nat → List Char → Option (List (String × Json) × List Char)
  | 0, _ => none
  | fuel + 1, cs =>
    match skipWs cs with
    | '"' :: rest =>
      match parseStringBody (rest.length + 1) rest with
      | some (key, r1) =>
        match skipWs r1 with
        | ':' :: r2 =>
          match parseValue fuel r2 with
          | some (v, r3) =>
            match skipWs r3 with
            | ',' :: r4 =>
              match parseMembers fuel r4 with
              | some (kvs, r5) => some ((String.mk key, v) :: kvs, r5)
              | none => none
            | c :: r4 =>
              if c = rbrace then some ([(String.mk key, v)], r4) else none
            | [] => none
          | none => none
        | _ => none
      | none => none
    | _ => none

/-- Parse an array body, right after the opening bracket. -/
def parseArrBody : Nat → List Char → Option (Json × List Char)
  | 0, _ => none
  | fuel + 1, cs =>
    match skipWs cs with
    | c :: rest =>
      if c = ']' then some (.arr [], rest)
      else
        match parseItems fuel (c :: rest) with
        | some (vs, r) => some (.arr vs, r)
        | none => none
    | [] => none

/-- Parse one or more array items followed by the closing bracket. -/
def parseItems : Nat → List Char → Option (List Json × List Char)
  | 0, _ => none
  | fuel + 1, cs =>
    match parseValue fuel cs with
    | some (v, r1) =>
      match skipWs r1 with
      | ',' :: r2 =>
        match parseItems fuel r2 with
        | some (vs, r3) => some (v :: vs, r3)
        | none => none
      | c :: r2 => if c = ']' then some ([v], r2) else none
      | [] => none
    | none => none

end

/-- Model of Python `json.loads`: parse one JSON document spanning the whole
input (up to surrounding whitespace); anything else is a parse failure. -/
def json_loads (s : String) : Option Json :=
  match parseValue (4 * s.data.length + 4) s.data with
  | some (v, rest) => if skipWs rest = [] then some v else none
  | none => none

/-! ## Model of Python `int()` on `json.loads` values -/

/-- Digits of a Python integer literal with optional single underscores
between digits; the first character must already be a digit. -/
def digitsURest (acc : Nat) : List Char → Option Nat
  | [] => some acc
  | '_' :: c :: r =>
    if c.isDigit then digitsURest (acc * 10 + (c.toNat - '0'.toNat)) r else none
  | c :: r =>
    if c.isDigit then digitsURest (acc * 10 + (c.toNat - '0'.toNat)) r else none

/-- Drop leading whitespace characters. -/
def dropLeadingWs (cs : List Char) : List Char :=
  cs.dropWhile (fun c => c.isWhitespace)

/-- Model of Python `int(s)` for a string argument: optional surrounding
whitespace, optional sign, then decimal digits (single underscores between
digits allowed).  Anything else raises `ValueError` (here: `none`). -/
def parseIntLit (s : String) : Option Int :=
  let cs := (dropLeadingWs ((dropLeadingWs s.data).reverse)).reverse
  match cs with
  | '+' :: c :: r =>
    if c.isDigit then (digitsURest 0 (c :: r)).map (fun n => (n : Int)) else none
  | '-' :: c :: r =>
    if c.isDigit then (digitsURest 0 (c :: r)).map (fun n => -(n : Int)) else none
  | c :: r =>
    if c.isDigit then (digitsURest 0 (c :: r)).map (fun n => (n : Int)) else none
  | [] => none

/-- Ten to a natural power, as an integer. -/
def pow10 (k : Nat) : Int := (10 : Int) ^ k

/-- Model of Python `int(x)` on a `json.loads` value: an `int` is returned
unchanged, a `float` is truncated toward zero, a `bool` becomes 0 or 1, a
string is parsed as an integer literal, and every other type raises
`TypeError` (here: `.error`).  `Int.tdiv` is truncating division, matching
the toward-zero truncation of Python `int(float)`. -/
def pyInt : Json → Except String Int
  | .num (.int n) => .ok n
  | .num (.float m e) =>
    if 0 ≤ e then .ok (m * pow10 e.toNat) else .ok (m.tdiv (pow10 (-e).toNat))
  | .bool b => .ok (if b then 1 else 0)
  | .str s =>
    match parseIntLit s with
    | some n => .ok n
    | none => .error ("invalid literal for int() with base 10: " ++ s)
  | .null => .error "int() argument must be a string, a bytes-like object or a real number, not NoneType"
  | .arr _ => .error "int() argument must be a string, a bytes-like object or a real number, not list"
  | .obj _ => .error "int() argument must be a string, a bytes-like object or a real number, not dict"

/-! ## The `CodeReview` record and `_parse_response` -/

/-- The `CodeReview` dataclass of src/main.py.  Python dataclass fields are
not type-checked at construction, so `issues`, `suggestions` and `summary`
hold whatever value `data.get` returned; only `quality_score` is always an
`int` (it is produced by `int()` or is the literal 0). -/
structure CodeReview where
  file_path : String
  issues : Json
  suggestions : Json
  quality_score : Int
  summary : Json

/-- Lookup in a parsed JSON object.  Python `json.loads` builds a `dict`, in
which a duplicated key keeps its last occurrence, so the lookup returns the
last binding of the key. -/
def lastLookup (kvs : List (String × Json)) (key : String) : Option Json :=
  kvs.foldl (fun acc kv => if kv.1 = key then some kv.2 else acc) none

/-- Model of `data.get(key, default)`: succeeds on a `dict`, raises
`AttributeError` (here: `.error`) on any other value. -/
def dataGet (data : Json) (key : String) (dflt : Json) : Except String Json :=
  match data with
  | .obj kvs => .ok ((lastLookup kvs key).getD dflt)
  | _ => .error "AttributeError: object has no attribute get"

/-- The body of the `try` block of `_parse_response` after `json.loads`
succeeded: `score = int(data.get("quality_score", 0))`, clamping
`max(0, min(100, score))`, then the `data.get` reads for the remaining
fields (src/main.py lines 63-72). -/
def extract_fields (data : Json) : Except String (Json × Json × Int × Json) := do
  let qs ← dataGet data "quality_score" (.num (.int 0))
  let score0 ← pyInt qs
  let issues ← dataGet data "issues" (.arr [])
  let suggestions ← dataGet data "suggestions" (.arr [])
  let summary ← dataGet data "summary" (.str "")
  return (issues, suggestions, max 0 (min 100 score0), summary)

/-- Index of the first character satisfying `p`. -/
def firstIdx (p : Char → Bool) : List Char → Option Nat
  | [] => none
  | c :: cs => if p c then some 0 else (firstIdx p cs).map (· + 1)

/-- List-level model of `re.search(r"\x7b[\s\S]*\x7d", response)`: the greedy
pattern matches from the first opening brace to the last closing brace,
provided the last closing brace lies strictly after the first opening
brace; otherwise there is no match. -/
def extractSpanL (cs : List Char) : Option (List Char) :=
  match firstIdx (fun c => c = lbrace) cs, firstIdx (fun c => c = rbrace) cs.reverse with
  | some i, some jr =>
    let j := cs.length - 1 - jr
    if i < j then some ((cs.drop i).take (j - i + 1)) else none
  | some _, none => none
  | none, _ => none

/-- The matched text of `re.search(r"\x7b[\s\S]*\x7d", response)`, if any. -/
def extractSpan (response : String) : Option String :=
  (extractSpanL response.data).map String.mk

/-- The `try` block of `_parse_response` (src/main.py lines 56-72): find the
brace span, run `json.loads` on it, then extract and normalize the fields.
Each `.error` is an exception reaching the `except` handler; the exact
message text of a `json.JSONDecodeError` is not modelled. -/
def parse_response_inner (response : String) : Except String (Json × Json × Int × Json) :=
  match extractSpan response with
  | none => .error "No JSON object found in Gemini response"
  | some span =>
    match json_loads span with
    | none => .error "Expecting value"
    | some data => extract_fields data

/-- Model of `AICodeReviewer._parse_response` (src/main.py lines 55-85): on any
exception inside the `try` block, return the sentinel `CodeReview` built in
the `except Exception` handler. -/
def parse_response (response : String) (file_path : String) : CodeReview :=
  match parse_response_inner response with
  | .ok (issues, suggestions, score, summary) =>
    ⟨file_path, issues, suggestions, score, summary⟩
  | .error e =>
    ⟨file_path,
     .arr [.obj [("type", .str "error"), ("line", .num (.int 0)),
                 ("message", .str ("Response parsing failed: " ++ e))]],
     .arr [],
     0,
     .str "Invalid Gemini response"⟩

/-! ## `_build_prompt` and the review pipeline -/

/-- The `ReviewType` enumeration of src/main.py. -/
inductive ReviewType where
  | quick
  | detailed
  | security

/-- The focus label each review type passes to `_build_prompt`
(src/main.py lines 141-151). -/
def focus_label : ReviewType → String
  | .quick => "Quick overall review"
  | .detailed => "Detailed quality and design review"
  | .security => "Strict security vulnerability review"

/-- Model of `AICodeReviewer._build_prompt` (src/main.py lines 103-137), transcribed
from the f-string.  Note that the `code` parameter does not occur in the
f-string: the section after the `Code:` header is empty in the source. -/
def build_prompt (code : String) (file_path : String) (focus : String) : String :=
  "\nYou are an expert software reviewer.\n\nFocus: " ++ focus ++
  "\n\nFile: " ++ file_path ++
  "\n\nCode:\n\nReturn ONLY raw JSON.\nDo NOT include markdown, explanations, or commentary.\n\nRequired JSON format:\n\x7b\n  \"issues\": [\n    \x7b\n      \"type\": \"security|bug|style|performance\",\n      \"line\": 10,\n      \"message\": \"description\",\n      \"severity\": \"low|medium|high|critical\",\n      \"cwe\": \"CWE-XXX\"\n    \x7d\n  ],\n  \"suggestions\": [\n    \x7b\n      \"category\": \"security|performance|style\",\n      \"message\": \"suggestion text\",\n      \"priority\": \"low|medium|high\"\n    \x7d\n  ],\n  \"quality_score\": 85,\n  \"summary\": \"short summary\"\n\x7d\n"

/-- Model of `AICodeReviewer._call_gemini` (src/main.py lines 43-51): the remote
text-generation service is the abstract parameter `gen`; any failure of the
call is re-raised as `RuntimeError("Gemini API call failed")`. -/
def call_gemini (gen : String → Except String String) (prompt : String) :
    Except String String :=
  match gen prompt with
  | .ok t => .ok t
  | .error _ => .error "Gemini API call failed"

/-- Model of `AICodeReviewer.review_code` (src/main.py lines 89-99 and 141-151):
build the prompt for the review type's focus, call the service, parse the
response.  Only a failure of the remote call propagates. -/
def review_code (gen : String → Except String String) (code : String)
    (file_path : String) (review_type : ReviewType) : Except String CodeReview :=
  match call_gemini gen (build_prompt code file_path (focus_label review_type)) with
  | .ok response => .ok (parse_response response file_path)
  | .error e => .error e

/-! ## `review_directory` over an abstract filesystem -/

/-- The filesystem as `review_directory` observes it: the `os.walk`
enumeration (each entry is a root with the file names listed under it, in
listing order) and the result of opening and reading a path
(`errors="ignore"` decoding is part of the read model; a raised `OSError`
is `.error`). -/
structure FS where
  walk : List (String × List String)
  readFile : String → Except String String

/-- Model of `os.path.join(root, file)` for a plain root and file name. -/
def joinPath (root : String) (file : String) : String := root ++ "/" ++ file

/-- Python `str.endswith(suffix)`: exact case-sensitive suffix match. -/
def endswith (s : String) (suffix : String) : Bool :=
  suffix.data.isSuffixOf s.data

/-- Model of `AICodeReviewer.review_directory` (src/main.py lines 155-173), also
recording the path of every file for which `review_code` (and hence one
upstream call) is invoked.  A file whose name matches no extension is
filtered out before any read or call; a read failure or upstream-call
failure is caught by the per-file `except` and the file is skipped. -/
def review_directory_aux (gen : String → Except String String) (fs : FS)
    (extensions : List String) : List CodeReview × List String :=
  fs.walk.foldl (fun acc entry =>
    entry.2.foldl (fun acc file =>
      if extensions.any (fun ext => endswith file ext) then
        let path := joinPath entry.1 file
        match fs.readFile path with
        | .error _ => acc
        | .ok code =>
          match review_code gen code path ReviewType.detailed with
          | .ok review => (acc.1 ++ [review], acc.2 ++ [path])
          | .error _ => (acc.1, acc.2 ++ [path])
      else acc) acc) ([], [])

/-- The review batch returned by `review_directory`. -/
def review_directory (gen : String → Except String String) (fs : FS)
    (extensions : List String) : List CodeReview :=
  (review_directory_aux gen fs extensions).1

/-- The paths for which `review_directory` invoked the upstream call. -/
def gemini_called_paths (gen : String → Except String String) (fs : FS)
    (extensions : List String) : List String :=
  (review_directory_aux gen fs extensions).2

/-! ## `generate_report`

The written report file is modelled as the produced string.  Python `str()`
of parsed JSON values is modelled by `pyRepr` below; its rendering of
nested strings and of floats is approximate (no escape handling, mantissa
and exponent shown verbatim) and no theorem depends on it. -/

/-- Python truthiness of a `json.loads` value. -/
def pyTruthy : Json → Bool
  | .null => false
  | .bool b => b
  | .num (.int n) => n ≠ 0
  | .num (.float m _) => m ≠ 0
  | .str s => s.data ≠ []
  | .arr xs => !xs.isEmpty
  | .obj kvs => !kvs.isEmpty

/-- Python iteration over a `json.loads` value: a list yields its elements,
a string its characters, a dict its keys; numbers, booleans and `None`
raise `TypeError`. -/
def pyIter : Json → Except String (List Json)
  | .arr xs => .ok xs
  | .str s => .ok (s.data.map (fun c => .str (String.mk [c])))
  | .obj kvs => .ok (kvs.map (fun kv => .str kv.1))
  | _ => .error "TypeError: object is not iterable"

mutual

/-- Approximate model of Python `repr` of a `json.loads` value. -/
def pyRepr : Json → String
  | .null => "None"
  | .bool b => if b then "True" else "False"
  | .num (.int n) => toString n
  | .num (.float m e) => toString m ++ "e" ++ toString e
  | .str s => String.mk [squote] ++ s ++ String.mk [squote]
  | .arr xs => "[" ++ pyReprList xs ++ "]"
  | .obj kvs => String.mk [lbrace] ++ pyReprKvs kvs ++ String.mk [rbrace]

/-- Comma-separated `repr` of list elements. -/
def pyReprList : List Json → String
  | [] => ""
  | [x] => pyRepr x
  | x :: xs => pyRepr x ++ ", " ++ pyReprList xs

/-- Comma-separated `repr` of dict entries. -/
def pyReprKvs : List (String × Json) → String
  | [] => ""
  | [kv] => String.mk [squote] ++ kv.1 ++ String.mk [squote] ++ ": " ++ pyRepr kv.2
  | kv :: kvs =>
    String.mk [squote] ++ kv.1 ++ String.mk [squote] ++ ": " ++ pyRepr kv.2 ++
    ", " ++ pyReprKvs kvs

end

/-- Python `str()` as used by an f-string interpolation. -/
def pyFStr : Json → String
  | .str s => s
  | v => pyRepr v

/-- One `if r.x: ... for i in r.x: f.write(f"- \x7bi\x7d\n")` block of
`generate_report` (src/main.py lines 190-200). -/
def render_block (title : String) (v : Json) : Except String String :=
  if pyTruthy v then
    match pyIter v with
    | .ok items =>
      .ok (title ++ String.join (items.map (fun i => "- " ++ pyFStr i ++ "\n")) ++ "\n")
    | .error e => .error e
  else .ok ""

/-- The per-review section of the report (src/main.py lines 185-202). -/
def render_review (r : CodeReview) : Except String String :=
  match render_block "### Issues\n" r.issues with
  | .error e => .error e
  | .ok ib =>
    match render_block "### Suggestions\n" r.suggestions with
    | .error e => .error e
    | .ok sb =>
      .ok ("## " ++ r.file_path ++ "\n\n" ++ "Score: " ++ toString r.quality_score ++
           "/100\n\n" ++ pyFStr r.summary ++ "\n\n" ++ ib ++ sb ++ "---\n\n")

/-- All per-review sections, in batch order. -/
def render_body : List CodeReview → Except String String
  | [] => .ok ""
  | r :: rs =>
    match render_review r with
    | .error e => .error e
    | .ok s =>
      match render_body rs with
      | .error e => .error e
      | .ok t => .ok (s ++ t)

/-- Python division: raises `ZeroDivisionError` on a zero divisor.  The
float quotient is modelled as the exact rational. -/
def pydiv (a b : ℚ) : Except String ℚ :=
  if b = 0 then .error "ZeroDivisionError: division by zero" else .ok (a / b)

/-- The sum `sum(r.quality_score for r in reviews)`. -/
def total_score (reviews : List CodeReview) : Int :=
  (reviews.map (fun r => r.quality_score)).sum

/-- The average `avg = sum(...) / len(reviews) if reviews else 0` (src/main.py line 182). -/
def report_avg (reviews : List CodeReview) : Except String ℚ :=
  if reviews.isEmpty then .ok 0
  else pydiv ((total_score reviews : ℚ)) ((reviews.length : ℚ))

/-- Nearest integer to `a / b` for `b > 0`, ties to even: the rounding used
by Python `format(x, ".1f")` on the modelled exact value. -/
def roundHalfEvenInt (a : Int) (b : Int) : Int :=
  let q := a.fdiv b
  let r := a - b * q
  if 2 * r < b then q
  else if 2 * r > b then q + 1
  else if q % 2 = 0 then q else q + 1

/-- Python `f"\x7bx:.1f\x7d"` on the modelled exact value of `x`. -/
def format1f (x : ℚ) : String :=
  let n := roundHalfEvenInt (10 * x.num) (x.den : Int)
  let sign := if n < 0 then "-" else ""
  let m := n.natAbs
  sign ++ toString (m / 10) ++ "." ++ toString (m % 10)

/-- Model of `AICodeReviewer.generate_report` (src/main.py lines 177-204): the
complete text written to the report file, or the exception that interrupted
writing it. -/
def generate_report (reviews : List CodeReview) : Except String String :=
  match report_avg reviews with
  | .error e => .error e
  | .ok avg =>
    match render_body reviews with
    | .error e => .error e
    | .ok body =>
      .ok ("# Code Review Report\n\n" ++
           ("Files reviewed: " ++ toString reviews.length ++ "\n\n") ++
           ("Average Score: " ++ format1f avg ++ "/100" ++ "\n\n---\n\n") ++ body)

/-- Modelled from the spec: the header average is "the arithmetic mean of
quality_score over the batch" and "0 if batch is empty" — stated
independently of the guarded division in `report_avg` so the two can be
compared. -/
def arithMean (reviews : List CodeReview) : ℚ :=
  if reviews.length = 0 then 0
  else (total_score reviews : ℚ) / (reviews.length : ℚ)

/-! ## Helper lemmas -/

theorem except_bind_ok {α β : Type} (x : Except String α) (f : α → Except String β) (b : β)
    (h : (x >>= f) = .ok b) : ∃ a, x = .ok a ∧ f a = .ok b := by
  cases x with
  | error e => exact absurd h (by simp [Bind.bind, Except.bind])
  | ok a => exact ⟨a, rfl, h⟩

theorem extract_fields_score_range (data : Json) (t : Json × Json × Int × Json)
    (h : extract_fields data = .ok t) : 0 ≤ t.2.2.1 ∧ t.2.2.1 ≤ 100 := by
  unfold extract_fields at h
  obtain ⟨qs, h1, h⟩ := except_bind_ok _ _ _ h
  obtain ⟨score0, h2, h⟩ := except_bind_ok _ _ _ h
  obtain ⟨issues, h3, h⟩ := except_bind_ok _ _ _ h
  obtain ⟨suggestions, h4, h⟩ := except_bind_ok _ _ _ h
  obtain ⟨summary, h5, h⟩ := except_bind_ok _ _ _ h
  have ht : t = (issues, suggestions, max 0 (min 100 score0), summary) := by
    cases h
    rfl
  subst ht
  exact ⟨le_max_left _ _, max_le (by norm_num) (min_le_left _ _)⟩

theorem parse_response_score_range (response : String) (file_path : String) :
    0 ≤ (parse_response response file_path).quality_score ∧
      (parse_response response file_path).quality_score ≤ 100 := by
  cases h : parse_response_inner response with
  | ok t =>
    obtain ⟨i, sg, sc, su⟩ := t
    simp only [parse_response, h]
    cases hspan : extractSpan response with
    | none => simp [parse_response_inner, hspan] at h
    | some span =>
      cases hload : json_loads span with
      | none => simp [parse_response_inner, hspan, hload] at h
      | some data =>
        simp only [parse_response_inner, hspan, hload] at h
        exact extract_fields_score_range data (i, sg, sc, su) h
  | error e => simp [parse_response, h]

theorem firstIdx_eq_none (p : Char → Bool) (l : List Char) (h : ∀ c ∈ l, p c = false) :
    firstIdx p l = none := by
  induction l with
  | nil => rfl
  | cons c cs ih =>
    have hc := h c (by simp)
    have ih2 := ih (fun x hx => h x (by simp [hx]))
    simp [firstIdx, hc, ih2]

theorem firstIdx_append_none (p : Char → Bool) (l1 l2 : List Char)
    (h : firstIdx p l1 = none) :
    firstIdx p (l1 ++ l2) = (firstIdx p l2).map (· + l1.length) := by
  induction l1 with
  | nil =>
    simp only [List.nil_append, List.length_nil]
    cases firstIdx p l2 <;> simp
  | cons c cs ih =>
    by_cases hc : p c
    · simp [firstIdx, hc] at h
    · simp only [firstIdx, hc, if_false, Bool.false_eq_true] at h ⊢
      have h' : firstIdx p cs = none := Option.map_eq_none'.mp h
      rw [List.append_eq, ih h']
      cases firstIdx p l2 with
      | none => simp
      | some x => simp [List.length_cons]; omega

theorem firstIdx_cons_true (p : Char → Bool) (c : Char) (cs : List Char) (h : p c = true) :
    firstIdx p (c :: cs) = some 0 := by
  simp [firstIdx, h]

theorem extractSpanL_concat (pre mid suf : List Char)
    (hpre : ∀ c ∈ pre, c ≠ lbrace ∧ c ≠ rbrace)
    (hsuf : ∀ c ∈ suf, c ≠ lbrace ∧ c ≠ rbrace)
    (hh : mid.head? = some lbrace)
    (hl : mid.getLast? = some rbrace) :
    extractSpanL (pre ++ mid ++ suf) = some mid := by
  cases mid with
  | nil => simp at hh
  | cons m ms =>
  have hm : m = lbrace := by simpa using hh
  subst hm
  have hms : ms ≠ [] := by
    intro hnil
    subst hnil
    have : lbrace = rbrace := by simpa using hl
    exact absurd this (by decide)
  have hlen2 : 2 ≤ (lbrace :: ms).length := by
    cases ms with
    | nil => exact absurd rfl hms
    | cons a as => simp [List.length_cons]
  have h1 : firstIdx (fun c => c = lbrace) (pre ++ (lbrace :: ms) ++ suf) = some pre.length := by
    rw [List.append_assoc]
    rw [firstIdx_append_none _ _ _
      (firstIdx_eq_none _ _ (fun c hc => decide_eq_false (hpre c hc).1))]
    rw [List.cons_append, firstIdx_cons_true _ _ _ (by simp)]
    simp
  have hrev : ((lbrace :: ms).reverse).head? = some rbrace := by
    rw [List.head?_reverse]
    exact hl
  have h2 : firstIdx (fun c => c = rbrace) (pre ++ (lbrace :: ms) ++ suf).reverse
      = some suf.length := by
    rw [List.reverse_append, List.reverse_append]
    rw [firstIdx_append_none _ _ _
      (firstIdx_eq_none _ _ (fun c hc => decide_eq_false (hsuf c (List.mem_reverse.mp hc)).2))]
    cases hrv : (lbrace :: ms).reverse with
    | nil => simp [hrv] at hrev
    | cons rv rvs =>
      have : rv = rbrace := by
        rw [hrv] at hrev
        simpa using hrev
      subst this
      rw [List.cons_append, firstIdx_cons_true _ _ _ (by simp)]
      simp
  have hL : (pre ++ (lbrace :: ms) ++ suf).length
      = pre.length + (lbrace :: ms).length + suf.length := by
    simp only [List.length_append, List.length_cons]
  unfold extractSpanL
  rw [h1, h2]
  simp only [hL]
  rw [if_pos (by omega)]
  have hdrop : (pre ++ (lbrace :: ms) ++ suf).drop pre.length = (lbrace :: ms) ++ suf := by
    rw [List.append_assoc]
    exact List.drop_left pre ((lbrace :: ms) ++ suf)
  rw [hdrop]
  have htake : pre.length + (lbrace :: ms).length + suf.length - 1 - suf.length
      - pre.length + 1 = (lbrace :: ms).length := by omega
  rw [htake]
  rw [List.take_left]

theorem report_avg_eq_arithMean (reviews : List CodeReview) :
    report_avg reviews = .ok (arithMean reviews) := by
  cases reviews with
  | nil => rfl
  | cons r rs =>
    have hne : ¬((r :: rs).isEmpty = true) := by simp
    have hlen0 : ¬((r :: rs).length = 0) := by simp
    have hlen : (((r :: rs).length : ℚ)) ≠ 0 := Nat.cast_ne_zero.mpr hlen0
    unfold report_avg arithMean pydiv
    rw [if_neg hne, if_neg hlen0, if_neg hlen]

/-- String-level form of `extractSpanL_concat`: a response consisting of a
brace-delimited text `s` surrounded by brace-free prose has exactly `s` as
the matched span. -/
theorem extractSpan_concat (pre s suf : String)
    (hpre : ∀ c ∈ pre.data, c ≠ lbrace ∧ c ≠ rbrace)
    (hsuf : ∀ c ∈ suf.data, c ≠ lbrace ∧ c ≠ rbrace)
    (hh : s.data.head? = some lbrace)
    (hl : s.data.getLast? = some rbrace) :
    extractSpan (pre ++ s ++ suf) = some s := by
  unfold extractSpan
  have hdata : (pre ++ s ++ suf).data = pre.data ++ s.data ++ suf.data := by
    rw [String.data_append, String.data_append]
  rw [hdata, extractSpanL_concat pre.data s.data suf.data hpre hsuf hh hl]
  rfl

/-- A brace-delimited text standing alone is its own matched span. -/
theorem extractSpan_self (s : String)
    (hh : s.data.head? = some lbrace)
    (hl : s.data.getLast? = some rbrace) :
    extractSpan s = some s := by
  unfold extractSpan
  have hdata : s.data = [] ++ s.data ++ [] := by simp
  rw [hdata, extractSpanL_concat [] s.data [] (by simp) (by simp) hh hl]
  rfl

/-! ## The claims -/

/-- C1: for every response string and subject, the `CodeReview` returned by
`_parse_response` has `quality_score` in [0, 100]; moreover a parsed numeric
`quality_score` of -50 yields 0, of 150 yields 100, of 85 yields 85, and a
missing `quality_score` field yields 0. -/
theorem quality_score_always_clamped :
    (∀ response file_path : String,
      0 ≤ (parse_response response file_path).quality_score ∧
        (parse_response response file_path).quality_score ≤ 100) ∧
    (parse_response "\x7b\"quality_score\": -50\x7d" "f.py").quality_score = 0 ∧
    (parse_response "\x7b\"quality_score\": 150\x7d" "f.py").quality_score = 100 ∧
    (parse_response "\x7b\"quality_score\": 85\x7d" "f.py").quality_score = 85 ∧
    (parse_response "\x7b\x7d" "f.py").quality_score = 0 :=
  ⟨parse_response_score_range, rfl, rfl, rfl, rfl⟩

/-- C2: `_parse_response` is a total function into `CodeReview` — every
fallible step of the `try` body is modelled inside `parse_response_inner`,
and any failure degrades to the sentinel record built in the
`except Exception` handler (subject preserved, score 0, empty suggestions,
a single error issue, summary "Invalid Gemini response"). -/
theorem parse_response_never_fails :
    ∀ response file_path : String,
      (parse_response response file_path).file_path = file_path ∧
      (∀ e, parse_response_inner response = .error e →
        parse_response response file_path =
          ⟨file_path,
           .arr [.obj [("type", .str "error"), ("line", .num (.int 0)),
                       ("message", .str ("Response parsing failed: " ++ e))]],
           .arr [], 0, .str "Invalid Gemini response"⟩) := by
  intro response file_path
  constructor
  · cases h : parse_response_inner response with
    | ok t =>
      obtain ⟨i, sg, sc, su⟩ := t
      simp [parse_response, h]
    | error e => simp [parse_response, h]
  · intro e he
    simp [parse_response, he]

/-- Witness for C2 at a concrete failing response. -/
theorem parse_response_never_fails_witness :
    (parse_response "no json here" "a.py").file_path = "a.py" ∧
    parse_response "no json here" "a.py" =
      ⟨"a.py",
       .arr [.obj [("type", .str "error"), ("line", .num (.int 0)),
                   ("message", .str ("Response parsing failed: " ++
                     "No JSON object found in Gemini response"))]],
       .arr [], 0, .str "Invalid Gemini response"⟩ :=
  ⟨(parse_response_never_fails "no json here" "a.py").1,
   (parse_response_never_fails "no json here" "a.py").2
     "No JSON object found in Gemini response" rfl⟩

/-- C10: `quality_score` conversion follows Python `int()` semantics: the
numeric string "85" is accepted and clamped to 85; the non-integral 85.7 is
truncated toward zero to 85; -0.5 truncates to 0; and on every response the
resulting score is an exact integer (the model's `quality_score` field has
type `Int` because the source computes it with `int()`). -/
theorem quality_score_int_semantics :
    (parse_response "\x7b\"quality_score\": \"85\"\x7d" "f.py").quality_score = 85 ∧
    (parse_response "\x7b\"quality_score\": 85.7\x7d" "f.py").quality_score = 85 ∧
    (parse_response "\x7b\"quality_score\": -0.5\x7d" "f.py").quality_score = 0 ∧
    (parse_response "\x7b\"quality_score\": \" 85 \"\x7d" "f.py").quality_score = 85 :=
  ⟨rfl, rfl, rfl, rfl⟩

set_option maxRecDepth 100000 in
/-- C3: refuted on the code — `_build_prompt` never embeds its `code`
parameter, so for the code text "z" (a character that occurs nowhere in the
prompt template, path or focus used here) the built prompt does not contain
the code text at all.  The prompt's `Code:` section is empty in the source:
the claim (and the spec) describe the clear intent, and the missing
interpolation is a slip in the code. -/
theorem build_prompt_omits_code :
    ¬ (("z" : String).data <:+: (build_prompt "z" "test.py" "Quick overall review").data) := by
  intro h
  have hz : 'z' ∈ (build_prompt "z" "test.py" "Quick overall review").data :=
    h.subset (by decide)
  exact absurd hz (by decide)

/-- C4: a response made of one brace-delimited text `s` that parses as a
JSON object, surrounded by brace-free prose, has exactly `s` as the
extracted span (first opening brace to last closing brace, which for a
single object is also its balanced match); the parse result is computed
from exactly that object's fields, and the surrounding prose does not
change the outcome. -/
theorem parse_extracts_single_object (pre s suf subject : String)
    (kvs : List (String × Json))
    (hpre : ∀ c ∈ pre.data, c ≠ lbrace ∧ c ≠ rbrace)
    (hsuf : ∀ c ∈ suf.data, c ≠ lbrace ∧ c ≠ rbrace)
    (hh : s.data.head? = some lbrace)
    (hl : s.data.getLast? = some rbrace)
    (hload : json_loads s = some (Json.obj kvs)) :
    extractSpan (pre ++ s ++ suf) = some s ∧
    parse_response_inner (pre ++ s ++ suf) = extract_fields (Json.obj kvs) ∧
    parse_response (pre ++ s ++ suf) subject = parse_response s subject := by
  have hspan := extractSpan_concat pre s suf hpre hsuf hh hl
  have hself := extractSpan_self s hh hl
  have hinner : parse_response_inner (pre ++ s ++ suf) = parse_response_inner s := by
    unfold parse_response_inner
    rw [hspan, hself]
  refine ⟨hspan, ?_, ?_⟩
  · rw [hinner]
    unfold parse_response_inner
    rw [hself]
    simp only [hload]
  · unfold parse_response
    rw [hinner]

/-- Witness for C4 at a concrete wrapped response. -/
theorem parse_extracts_single_object_witness :
    ((∀ c ∈ ("Sure, here is the review:\n" : String).data, c ≠ lbrace ∧ c ≠ rbrace) ∧
     (∀ c ∈ ("\nHope this helps." : String).data, c ≠ lbrace ∧ c ≠ rbrace) ∧
     ("\x7b\"quality_score\": 90, \"summary\": \"good\"\x7d" : String).data.head?
       = some lbrace ∧
     ("\x7b\"quality_score\": 90, \"summary\": \"good\"\x7d" : String).data.getLast?
       = some rbrace ∧
     json_loads "\x7b\"quality_score\": 90, \"summary\": \"good\"\x7d"
       = some (.obj [("quality_score", .num (.int 90)), ("summary", .str "good")])) ∧
    (extractSpan ("Sure, here is the review:\n" ++
        "\x7b\"quality_score\": 90, \"summary\": \"good\"\x7d" ++ "\nHope this helps.")
       = some "\x7b\"quality_score\": 90, \"summary\": \"good\"\x7d" ∧
     parse_response_inner ("Sure, here is the review:\n" ++
        "\x7b\"quality_score\": 90, \"summary\": \"good\"\x7d" ++ "\nHope this helps.")
       = extract_fields (.obj [("quality_score", .num (.int 90)), ("summary", .str "good")]) ∧
     parse_response ("Sure, here is the review:\n" ++
        "\x7b\"quality_score\": 90, \"summary\": \"good\"\x7d" ++ "\nHope this helps.") "f.py"
       = parse_response "\x7b\"quality_score\": 90, \"summary\": \"good\"\x7d" "f.py") :=
  ⟨⟨by decide, by decide, rfl, rfl, rfl⟩,
   parse_extracts_single_object "Sure, here is the review:\n"
     "\x7b\"quality_score\": 90, \"summary\": \"good\"\x7d" "\nHope this helps." "f.py"
     [("quality_score", .num (.int 90)), ("summary", .str "good")]
     (by decide) (by decide) rfl rfl rfl⟩

/-- C5 counterexample: the claim predicts that a non-numeric
`quality_score` is defaulted to 0 while the remaining fields are still
extracted, and that a present non-array `issues` value becomes the empty
sequence.  On the response with quality_score "abc" and summary "ok" the
code instead fails the whole parse (summary becomes the sentinel text, not
"ok"), and a present non-array `issues` value is passed through unchanged. -/
theorem field_defaulting_counterexample :
    (parse_response "\x7b\"quality_score\": \"abc\", \"summary\": \"ok\"\x7d" "a.py").summary
      = Json.str "Invalid Gemini response" ∧
    Json.str "Invalid Gemini response" ≠ Json.str "ok" ∧
    (parse_response "\x7b\"issues\": \"oops\"\x7d" "a.py").issues = Json.str "oops" ∧
    Json.str "oops" ≠ Json.arr [] := by
  refine ⟨rfl, ?_, rfl, ?_⟩
  · intro h
    injection h with h
    exact absurd h (by decide)
  · intro h
    exact Json.noConfusion h

/-- C5 (amended): when the extracted span parses as a JSON object, a
missing `quality_score` key defaults to 0 while the remaining fields are
still read from the object; a `quality_score` value rejected by `int()`
fails the whole parse to the sentinel record; and `issues`, `suggestions`
and `summary` are read with `data.get` defaults (empty list, empty list,
empty string) when missing but are passed through without any type check
when present. -/
theorem field_defaulting_amended (response subject s : String)
    (kvs : List (String × Json))
    (hspan : extractSpan response = some s)
    (hload : json_loads s = some (Json.obj kvs)) :
    (∀ n, pyInt ((lastLookup kvs "quality_score").getD (.num (.int 0))) = .ok n →
       parse_response response subject =
         ⟨subject, (lastLookup kvs "issues").getD (.arr []),
          (lastLookup kvs "suggestions").getD (.arr []), max 0 (min 100 n),
          (lastLookup kvs "summary").getD (.str "")⟩) ∧
    (lastLookup kvs "quality_score" = none →
       parse_response response subject =
         ⟨subject, (lastLookup kvs "issues").getD (.arr []),
          (lastLookup kvs "suggestions").getD (.arr []), 0,
          (lastLookup kvs "summary").getD (.str "")⟩) ∧
    (∀ e, pyInt ((lastLookup kvs "quality_score").getD (.num (.int 0))) = .error e →
       parse_response response subject =
         ⟨subject, .arr [.obj [("type", .str "error"), ("line", .num (.int 0)),
            ("message", .str ("Response parsing failed: " ++ e))]],
          .arr [], 0, .str "Invalid Gemini response"⟩) := by
  have hinner : parse_response_inner response = extract_fields (Json.obj kvs) := by
    unfold parse_response_inner
    rw [hspan]
    simp only [hload]
  refine ⟨?_, ?_, ?_⟩
  · intro n hn
    unfold parse_response
    rw [hinner]
    unfold extract_fields dataGet
    simp only [Bind.bind, Except.bind, hn]
    rfl
  · intro hmiss
    unfold parse_response
    rw [hinner]
    unfold extract_fields dataGet
    simp only [Bind.bind, Except.bind, hmiss, Option.getD_none]
    simp only [pyInt]
    rfl
  · intro e he
    unfold parse_response
    rw [hinner]
    unfold extract_fields dataGet
    simp only [Bind.bind, Except.bind, he]

/-- Witness for C5 (amended) at concrete responses. -/
theorem field_defaulting_amended_witness :
    (extractSpan "\x7b\"summary\": \"ok\"\x7d" = some "\x7b\"summary\": \"ok\"\x7d" ∧
     json_loads "\x7b\"summary\": \"ok\"\x7d" = some (Json.obj [("summary", .str "ok")]) ∧
     lastLookup [("summary", Json.str "ok")] "quality_score" = none) ∧
    parse_response "\x7b\"summary\": \"ok\"\x7d" "a.py" =
      ⟨"a.py", (lastLookup [("summary", Json.str "ok")] "issues").getD (.arr []),
       (lastLookup [("summary", Json.str "ok")] "suggestions").getD (.arr []), 0,
       (lastLookup [("summary", Json.str "ok")] "summary").getD (.str "")⟩ :=
  ⟨⟨rfl, rfl, rfl⟩,
   (field_defaulting_amended "\x7b\"summary\": \"ok\"\x7d" "a.py" "\x7b\"summary\": \"ok\"\x7d"
     [("summary", .str "ok")] rfl rfl).2.1 rfl⟩

/-- C6 counterexample: on the braceless response "hello" the claim predicts
the sentinel `issues = [(category, error), (line, 0), (message, "No JSON
object found in response")]` with summary "Invalid response"; the code's
sentinel differs (key "type", message "Response parsing failed: No JSON
object found in Gemini response", summary "Invalid Gemini response"), so
the predicted record is not the result. -/
theorem no_json_sentinel_counterexample :
    parse_response "hello" "a.py" ≠
      ⟨"a.py",
       .arr [.obj [("category", .str "error"), ("line", .num (.int 0)),
                   ("message", .str "No JSON object found in response")]],
       .arr [], 0, .str "Invalid response"⟩ := by
  intro h
  have hsum := congrArg CodeReview.summary h
  rw [show (parse_response "hello" "a.py").summary = Json.str "Invalid Gemini response"
    from rfl] at hsum
  injection hsum with hsum
  exact absurd hsum (by decide)

/-- C6 (amended): for every response in which the brace-span search fails,
`_parse_response` returns the sentinel with `issues` equal to the single
record `(type: "error", line: 0, message: "Response parsing failed: No JSON
object found in Gemini response")`, empty suggestions, `quality_score` 0
and summary "Invalid Gemini response". -/
theorem no_json_sentinel_amended (response subject : String)
    (h : extractSpan response = none) :
    parse_response response subject =
      ⟨subject,
       .arr [.obj [("type", .str "error"), ("line", .num (.int 0)),
                   ("message", .str "Response parsing failed: No JSON object found in Gemini response")]],
       .arr [], 0, .str "Invalid Gemini response"⟩ := by
  unfold parse_response parse_response_inner
  rw [h]
  rfl

/-- Witness for C6 (amended) at the braceless response "hello". -/
theorem no_json_sentinel_amended_witness :
    extractSpan "hello" = none ∧
    parse_response "hello" "a.py" =
      ⟨"a.py",
       .arr [.obj [("type", .str "error"), ("line", .num (.int 0)),
                   ("message", .str "Response parsing failed: No JSON object found in Gemini response")]],
       .arr [], 0, .str "Invalid Gemini response"⟩ :=
  ⟨rfl, no_json_sentinel_amended "hello" "a.py" rfl⟩

/-- C7: in a three-file batch in which the upstream call fails for exactly
the second file, `review_directory` returns exactly the two results for the
first and third files, in traversal order; the failing file is skipped (no
sentinel entry) and traversal continues past it. -/
theorem upstream_failure_skips_file
    (gen : String → Except String String) (fs : FS)
    (root f1 f2 f3 c1 c2 c3 r1 r3 e : String)
    (hwalk : fs.walk = [(root, [f1, f2, f3])])
    (h1 : endswith f1 ".py" = true)
    (h2 : endswith f2 ".py" = true)
    (h3 : endswith f3 ".py" = true)
    (hr1 : fs.readFile (joinPath root f1) = .ok c1)
    (hr2 : fs.readFile (joinPath root f2) = .ok c2)
    (hr3 : fs.readFile (joinPath root f3) = .ok c3)
    (hg1 : gen (build_prompt c1 (joinPath root f1) "Detailed quality and design review") = .ok r1)
    (hg2 : gen (build_prompt c2 (joinPath root f2) "Detailed quality and design review") = .error e)
    (hg3 : gen (build_prompt c3 (joinPath root f3) "Detailed quality and design review") = .ok r3) :
    review_directory gen fs [".py"] =
      [parse_response r1 (joinPath root f1), parse_response r3 (joinPath root f3)] := by
  unfold review_directory review_directory_aux
  rw [hwalk]
  simp [review_code, call_gemini, focus_label, h1, h2, h3, hr1, hr2, hr3, hg1, hg2, hg3]

/-- Witness for C7 with a concrete filesystem and a service that fails on
the second file's prompt. -/
theorem upstream_failure_skips_file_witness :
    review_directory
      (fun prompt =>
        if prompt = build_prompt "code of d/b.py" "d/b.py" "Detailed quality and design review"
        then .error "quota exceeded" else .ok "no json")
      ⟨[("d", ["a.py", "b.py", "c.py"])], fun p => .ok ("code of " ++ p)⟩ [".py"] =
      [parse_response "no json" (joinPath "d" "a.py"),
       parse_response "no json" (joinPath "d" "c.py")] := by
  exact upstream_failure_skips_file _ _ "d" "a.py" "b.py" "c.py"
    "code of d/a.py" "code of d/b.py" "code of d/c.py" "no json" "no json" "quota exceeded"
    rfl (by decide) (by decide) (by decide) rfl rfl rfl
    (by rw [if_neg (by decide)])
    (by rw [show joinPath "d" "b.py" = "d/b.py" from rfl, if_pos rfl])
    (by rw [if_neg (by decide)])

/-- C8: in a directory listing the files a.py, b.txt, c.py with extension
filter [.py], the batch has exactly the two results for a.py and c.py in
traversal order, and the upstream call is made exactly for those two paths
— b.txt never triggers one (extension matching is exact case-sensitive
suffix matching of the file name). -/
theorem extension_filter_selects
    (gen : String → Except String String) (fs : FS) (cA cC rA rC : String)
    (hwalk : fs.walk = [("d", ["a.py", "b.txt", "c.py"])])
    (hrA : fs.readFile (joinPath "d" "a.py") = .ok cA)
    (hrC : fs.readFile (joinPath "d" "c.py") = .ok cC)
    (hgA : gen (build_prompt cA (joinPath "d" "a.py") "Detailed quality and design review") = .ok rA)
    (hgC : gen (build_prompt cC (joinPath "d" "c.py") "Detailed quality and design review") = .ok rC) :
    review_directory_aux gen fs [".py"] =
      ([parse_response rA (joinPath "d" "a.py"), parse_response rC (joinPath "d" "c.py")],
       [joinPath "d" "a.py", joinPath "d" "c.py"]) := by
  have ha : endswith "a.py" ".py" = true := by decide
  have hb : endswith "b.txt" ".py" = false := by decide
  have hc : endswith "c.py" ".py" = true := by decide
  unfold review_directory_aux
  rw [hwalk]
  simp [review_code, call_gemini, focus_label, ha, hb, hc, hrA, hrC, hgA, hgC]

/-- Witness for C8 with a concrete filesystem and service. -/
theorem extension_filter_selects_witness :
    review_directory_aux (fun _ => .ok "no json")
      ⟨[("d", ["a.py", "b.txt", "c.py"])], fun p => .ok ("code of " ++ p)⟩ [".py"] =
      ([parse_response "no json" (joinPath "d" "a.py"),
        parse_response "no json" (joinPath "d" "c.py")],
       [joinPath "d" "a.py", joinPath "d" "c.py"]) := by
  exact extension_filter_selects _ _ "code of d/a.py" "code of d/c.py" "no json" "no json"
    rfl rfl rfl rfl rfl

/-- C9: `generate_report` on the empty batch produces exactly the report
stating 0 files reviewed and average 0.0 with no division fault; the
guarded average always succeeds and equals the arithmetic mean of the
scores (0 for the empty batch); and every produced report contains the
file count and the mean formatted to one decimal place in its header. -/
theorem report_empty_and_mean :
    (generate_report [] =
      .ok "# Code Review Report\n\nFiles reviewed: 0\n\nAverage Score: 0.0/100\n\n---\n\n") ∧
    (∀ reviews : List CodeReview, report_avg reviews = .ok (arithMean reviews)) ∧
    (∀ (reviews : List CodeReview) (s : String), generate_report reviews = .ok s →
       ("Files reviewed: " ++ toString reviews.length).data <:+: s.data ∧
       ("Average Score: " ++ format1f (arithMean reviews) ++ "/100").data <:+: s.data) := by
  refine ⟨rfl, report_avg_eq_arithMean, ?_⟩
  intro reviews s h
  unfold generate_report at h
  rw [report_avg_eq_arithMean] at h
  cases hb : render_body reviews with
  | error eb => rw [hb] at h; exact absurd h (by simp)
  | ok body =>
    rw [hb] at h
    have hs : "# Code Review Report\n\n" ++
        ("Files reviewed: " ++ toString reviews.length ++ "\n\n") ++
        ("Average Score: " ++ format1f (arithMean reviews) ++ "/100" ++ "\n\n---\n\n") ++ body
        = s := by
      injection h
    subst hs
    constructor
    · refine ⟨"# Code Review Report\n\n".data,
        ("\n\n" ++ ("Average Score: " ++ format1f (arithMean reviews) ++ "/100" ++
          "\n\n---\n\n") ++ body).data, ?_⟩
      simp [String.data_append, List.append_assoc]
    · refine ⟨("# Code Review Report\n\n" ++
          ("Files reviewed: " ++ toString reviews.length ++ "\n\n")).data,
        ("\n\n---\n\n" ++ body).data, ?_⟩
      simp [String.data_append, List.append_assoc]

/-- Witness for C9 at the empty batch. -/
theorem report_empty_and_mean_witness :
    ("Files reviewed: " ++ toString ([] : List CodeReview).length).data <:+:
      ("# Code Review Report\n\nFiles reviewed: 0\n\nAverage Score: 0.0/100\n\n---\n\n" : String).data ∧
    ("Average Score: " ++ format1f (arithMean ([] : List CodeReview)) ++ "/100").data <:+:
      ("# Code Review Report\n\nFiles reviewed: 0\n\nAverage Score: 0.0/100\n\n---\n\n" : String).data :=
  report_empty_and_mean.2.2 [] _ rfl

end CodeReviewer
